import Mathlib

/-!
Shallow embedding of `src/apache 2.2/src/mod_csrfprotector.c` (OWASP
mod_csrfprotector, Apache 2.2 module).  Strings are modelled as Lean
`String`/`List Char` (C strings contain no interior NUL in the paths we
model), machine integers as `Nat`/`Int`, and the SQLite-backed session
table as an explicit list of rows.
-/

namespace Csrfp

set_option maxRecDepth 8000

/-! ### Constants from the `#define` block (lines 52-88 of the source) -/

def TOKEN_EXPIRY_MAXTIME : Nat := 1800

def RESEED_RAND_AT : Nat := 10000

def DEFAULT_TOKEN_MINIMUM_LENGTH : Int := 12

def CSRFP_OVERLAP_BUCKET_SIZE : Nat := 8

def SQL_SESSID_DEFAULT_LENGTH : Nat := 10

/-- Apache status codes used by `failedValidationAction` (from httpd.h):
`OK = 0`, `DONE = -2`, `HTTP_FORBIDDEN = 403`, `HTTP_MOVED_PERMANENTLY = 301`,
`HTTP_INTERNAL_SERVER_ERROR = 500`. -/
def AP_OK : Int := 0

def AP_DONE : Int := -2

def HTTP_FORBIDDEN : Int := 403

def HTTP_MOVED_PERMANENTLY : Int := 301

def HTTP_INTERNAL_SERVER_ERROR : Int := 500

/-! ### apr string helpers

`apr_cpystrn(dst, src, n)` copies at most `n - 1` characters of `src`
into `dst` and NUL-terminates; the resulting string is the first
`min (n-1) (length src)` characters of `src`. -/

def apr_cpystrn (src : String) (n : Nat) : String :=
  ⟨src.data.take (n - 1)⟩

/-! ### TokenStore: `csrfp_sql_match` (source lines 967-1005)

The session table `CSRFP(sessid PRIMARY KEY, token, timestamp)` is
modelled as a list of rows; the query
`SELECT timestamp FROM CSRFP WHERE sessid = '%s' AND token = '%s'`
filters on BOTH columns and the `while(sqlite3_step == SQLITE_ROW)`
loop breaks after the first row.  `now` is the `(unsigned)time(NULL)`
value taken at the start of the call.  The C NULL-argument guard
(`sessid == NULL || value == NULL`) has no counterpart because Lean
strings are never null. -/

structure SessionRow where
  sessid : String
  token : String
  timestamp : Nat
deriving Repr, DecidableEq

def sqlSelectByBoth (tbl : List SessionRow) (s v : String) : Option SessionRow :=
  tbl.find? (fun row => row.sessid == s && row.token == v)

/-- Return codes of `csrfp_sql_match`: `0` for a valid (matching,
unexpired) token, `-1` when the row found by the sessid+token query is
expired (`timestamp > stored + TOKEN_EXPIRY_MAXTIME`, strict), `1` when
the query returns no row. -/
def csrfp_sql_match (tbl : List SessionRow) (sessid value : String) (now : Nat) : Int :=
  match sqlSelectByBoth tbl sessid value with
  | some row => if now > row.timestamp + TOKEN_EXPIRY_MAXTIME then -1 else 0
  | none => 1

/-! ### TokenGenerator: `generateToken` (source lines 292-306)

`charset` is the 62-symbol string from the source; `len = strlen(charset)`
is 62 and each output character is `charset[buf[i] % (len - 1)]`, i.e.
the random byte is reduced modulo 61, not 62.  The token is modelled as
the list of characters produced from the `length` random bytes `buf`. -/

def charset : List Char :=
  "abcdefghijklmnopqrstuvwxyzABCDEFGHIJKLMNOPQRSTUVWXYZ1234567890".data

def generateTokenChars (buf : List Nat) : List Char :=
  buf.map (fun b => charset.getD (b % (charset.length - 1)) 'a')

/-! ### FailureActionPolicy: `failedValidationAction` (source lines 645-691) -/

inductive CsrfpAction where
  | forbidden
  | strip
  | redirect
  | message
  | internal_server_error
deriving Repr, DecidableEq

/-- Observable effect of `failedValidationAction`: the returned status
code, the body written through `ap_rprintf` (if any), the `Location`
header added (if any), and whether the GET query string / POST body was
cleared on the `strip` path. -/
structure ActionOutcome where
  status : Int
  body : Option String
  locationHeader : Option String
  argsCleared : Bool
  postBodyDiscarded : Bool
deriving Repr, DecidableEq

def failedValidationAction (action : CsrfpAction)
    (errorRedirectionUri errorCustomMessage : String)
    (method : String) (args : Option String) : ActionOutcome :=
  match action with
  | .forbidden =>
      ⟨HTTP_FORBIDDEN, none, none, false, false⟩
  | .strip =>
      if method == "GET" && args.isSome then
        ⟨AP_OK, none, none, true, false⟩
      else if method == "POST" then
        ⟨AP_OK, none, none, false, true⟩
      else
        ⟨AP_OK, none, none, false, false⟩
  | .redirect =>
      if errorRedirectionUri.length > 0 then
        ⟨HTTP_MOVED_PERMANENTLY, none, some errorRedirectionUri, false, false⟩
      else
        ⟨HTTP_FORBIDDEN, none, none, false, false⟩
  | .message =>
      -- ap_rprintf(r, "<h2>%s</h2>", conf->errorCustomMessage); return DONE;
      ⟨AP_DONE, some ("<h2>" ++ errorCustomMessage ++ "</h2>"), none, false, false⟩
  | .internal_server_error =>
      ⟨HTTP_INTERNAL_SERVER_ERROR, none, none, false, false⟩

/-! ### Decimal parsing: `atoi` / `apr_strtoff`

Both parse an optional run of whitespace, an optional sign and a run of
decimal digits (value `0` when there are no digits).  `apr_strtoff`
reports failure exactly when the value falls outside the `int64` range
(`strtoll` sets `errno = ERANGE`, the only errno apr_strtoff turns into
a non-success status). -/

def isSpaceC (c : Char) : Bool :=
  c == ' ' || c == '\t' || c == '\n' || c == '\x0b' || c == '\x0c' || c == '\x0d'

def digitsVal (cs : List Char) : Nat :=
  (cs.takeWhile Char.isDigit).foldl (fun a c => a * 10 + (c.toNat - 48)) 0

def parseDecimal (s : String) : Int :=
  match s.data.dropWhile isSpaceC with
  | '-' :: t => -(digitsVal t : Int)
  | '+' :: t => (digitsVal t : Int)
  | cs => (digitsVal cs : Int)

def atoiC (s : String) : Int := parseDecimal s

def INT64_MAX : Int := 2 ^ 63 - 1

def INT64_MIN : Int := -(2 ^ 63)

def apr_strtoff (s : String) : Option Int :=
  let v := parseDecimal s
  if v < INT64_MIN || INT64_MAX < v then none else some v

/-! ### Configuration: `csrfp_tokenLength_cmd` (source lines 1479-1491)

`current` is the token length in effect before the directive is
processed; the directive leaves it unchanged when the argument is empty
or parses below `DEFAULT_TOKEN_MINIMUM_LENGTH` (12). -/

def csrfp_tokenLength_cmd (arg : String) (current : Int) : Int :=
  if arg.length > 0 then
    let length := atoiC arg
    if length < DEFAULT_TOKEN_MINIMUM_LENGTH ∨ length = 0 then current
    else length
  else current

/-! ### ResponseRewriter: output filter state (source lines 121-127, 162-173) -/

inductive FState where
  | op_init
  | op_body_init
  | op_body_end
  | op_end
deriving Repr, DecidableEq

/-- The per-request output filter context `csrfp_opf_ctx`.  `search` is
`none` when the C field is the NULL pointer.  The `clstate` field is
tracked separately through `CLResult` below. -/
structure OpfCtx where
  search : Option String
  state : FState
  script : String
  noscript : String
  overlap_buf : String
deriving Repr, DecidableEq

/-- Rule string built in `csrfp_get_rctx` (source lines 527-536): each
GET-rule pattern quoted with single quotes, comma separated, `none`
when the rule list is empty. -/
def getRuleString (patterns : List String) : Option String :=
  patterns.foldl
    (fun acc p =>
      match acc with
      | some s => some (s ++ ",\x27" ++ p ++ "\x27")
      | none => some ("\x27" ++ p ++ "\x27"))
    none

/-- The `<script>` payload format string of `csrfp_get_rctx`
(source lines 539-549), with `jsFilePath`, the rule string and
`tokenName` substituted. -/
def scriptPayload (jsFilePath tokenName : String) (patterns : List String) : String :=
  "\n<script type=\"text/javascript\" src=\"" ++ jsFilePath ++ "\"></script>\n"
    ++ "<script type=\"text/JavaScript\">\n"
    ++ "window.onload = function() \x7b\n"
    ++ "\t  CSRFP.checkForUrls = [" ++ ((getRuleString patterns).getD "") ++ "];\n"
    ++ "\t  CSRFP.CSRFP_TOKEN = \x27" ++ tokenName ++ "\x27;\n"
    ++ "\t  csrfprotector_init();\n"
    ++ "\x7d\n</script>\n"

/-- The `<noscript>` payload of `csrfp_get_rctx` (source lines 523-524). -/
def noscriptPayload (disablesJsMessage : String) : String :=
  "\n<noscript>\n" ++ disablesJsMessage ++ "\n</noscript>"

/-- Fresh filter context built by `csrfp_get_rctx` (source lines 512-561):
state `op_init`, search string `"<body"`, and an overlap buffer
holding `apr_cpystrn(buf, "--------", 8)` = seven dashes. -/
def csrfp_get_rctx (jsFilePath tokenName disablesJsMessage : String)
    (patterns : List String) : OpfCtx :=
  { search := some "<body"
    state := .op_init
    script := scriptPayload jsFilePath tokenName patterns
    noscript := noscriptPayload disablesJsMessage
    overlap_buf := apr_cpystrn "--------" CSRFP_OVERLAP_BUCKET_SIZE }

/-- `csrfp_inject` (source lines 580-604): split the bucket at `sz`,
insert the script (`flag = true`) or noscript (`flag = false`) payload
after the first part, and update the parser state.  On the noscript
branch the search string becomes
`apr_cpystrn(rctx->search, "</body>", strlen("</body>"))`, which copies
only `strlen("</body>") - 1 = 6` characters.  The returned chunk list
replaces the original bucket; the bucket the C function returns (for
the caller to continue at) is the final piece. -/
def csrfp_inject (rctx : OpfCtx) (chunk : String) (sz : Nat) (flag : Bool) :
    OpfCtx × List String :=
  let insert := if flag then rctx.script else rctx.noscript
  let pieces := [⟨chunk.data.take sz⟩, insert, ⟨chunk.data.drop sz⟩]
  let rctx' :=
    if flag then
      { rctx with state := .op_body_end, search := none }
    else
      { rctx with state := .op_body_init,
                  search := some (apr_cpystrn "</body>" "</body>".length) }
  (rctx', pieces)

/-! ### `csrfp_strncasestr` (source lines 227-261)

Case-insensitive bounded substring search.  Tracing the loop: a match
is reported at the first position `p` such that the whole pattern
occurrence lies within the first `len` characters of `s1`
(`p + |s2| <= len`, since the inner loop aborts when the compare pointer
passes `e1 = s1 + len - 1`) and within the NUL-terminated string itself
(`p + |s2| <= |s1|`); an empty pattern matches at position 0.  We model
the returned pointer as the index of the match. -/

def lowerEqCI (a b : List Char) : Bool :=
  a.map Char.toLower == b.map Char.toLower

def csrfp_strncasestr (hay pat : List Char) (len : Nat) : Option Nat :=
  if pat = [] then some 0
  else
    (List.range (min len hay.length + 1)).find?
      (fun p => decide (p + pat.length ≤ min len hay.length)
        && lowerEqCI ((hay.drop p).take pat.length) pat)

/-! ### The bracket scan and overlap save inside `csrfp_out_filter` -/

/-- The `for ( ; *c != '>'; offset++, c++)` loop (source lines 1277-1283):
starting from the characters at `c`, return the offset of the first `'>'
` (`flag = 0` in the source), or `none` when the cutoff
`offset + markerlen == buflen` is reached first (`flag = 1`).  The
cutoff test runs only when the current character is not `'>'`.  If the
characters run out before either condition the C code reads past the
NUL terminator (undefined behaviour); we model that as deferral. -/
def bracketLoop : List Char → Nat → Nat → Nat → Option Nat
  | [], _, _, _ => none
  | c :: t, offset, markerlen, buflen =>
      if c = '>' then some offset
      else if offset + markerlen = buflen then none
      else bracketLoop t (offset + 1) markerlen buflen

/-- On a 64-bit platform `sizeof(const char *) = 8`. -/
def sizeof_charptr : Nat := 8

/-- The no-match branch of the scan (source lines 1301-1305):
`cptr = buf + (sizeof buf) - CSRFP_OVERLAP_BUCKET_SIZE` where `buf` is a
pointer, so `sizeof buf` is the pointer size (8 on 64-bit) and `cptr`
points at the START of the chunk; `apr_cpystrn` then copies at most
`CSRFP_OVERLAP_BUCKET_SIZE - 1 = 7` characters. -/
def saveOverlap (buf : String) : String :=
  apr_cpystrn ⟨buf.data.drop (sizeof_charptr - CSRFP_OVERLAP_BUCKET_SIZE)⟩
    CSRFP_OVERLAP_BUCKET_SIZE

/-- The `op_body_init` injection site (source lines 1297-1299):
`sz = strlen(buf) - strlen(marker) + sizeof("</body>") - 1` with the
marker found at index `j` of `nbuf = overlap_buf ++ buf` (so
`strlen(marker) = |nbuf| - j`), then `csrfp_inject(..., sz, 1)`.
`Nat` subtraction stands in for the `apr_size_t` arithmetic; the two
agree whenever the marker lies inside the chunk proper
(`j ≥ |overlap_buf|`). -/
def bodyEndInject (rctx : OpfCtx) (buf : String) (j : Nat) : OpfCtx × List String :=
  let nbufLen := rctx.overlap_buf.length + buf.length
  let sz := buf.length - (nbufLen - j) + ("</body>".length)
  csrfp_inject rctx buf sz true

/-! ### The scan loop of `csrfp_out_filter` (source lines 1219-1312)

Functional rendering of the bucket loop with its `restart:` label.
`fbo` is the per-bucket `findBracketOnly` flag (case 2: `<body` seen but
`>` deferred to the next bucket).  `fuel` bounds the recursion; every
call either consumes a bucket or strictly shortens the current one, so
`totalLen + count + 1` fuel always suffices.  Where the C code is
undefined (reading a bucket while `rctx->search` is NULL after the
script injection, or running off the end of the brigade in case 2) the
model forwards the remaining buckets unchanged. -/
def scanLoop : Nat → OpfCtx → Bool → List String → List String → OpfCtx × List String
  | 0, rctx, _, pending, acc => (rctx, acc.reverse ++ pending)
  | _ + 1, rctx, _, [], acc => (rctx, acc.reverse)
  | fuel + 1, rctx, fbo, buf :: rest, acc =>
      if buf.length = 0 then
        scanLoop fuel rctx false rest (buf :: acc)
      else
        match rctx.search with
        | none => (rctx, acc.reverse ++ buf :: rest)
        | some s =>
            let nbuf : List Char := rctx.overlap_buf.data ++ buf.data
            let marker? := csrfp_strncasestr nbuf s.data buf.length
            if marker?.isSome || fbo then
              if rctx.state = .op_init || fbo then
                -- the '<body' / '>' handling (source lines 1258-1296)
                let buflen := buf.length
                let j := marker?.getD 0
                let markerlen := if fbo then 0 else nbuf.length - j
                let scanChars := if fbo then buf.data else nbuf.drop j
                match bracketLoop scanChars 0 markerlen buflen with
                | some offset =>
                    -- case 1: '>' found; sz = (buflen - markerlen) + offset + 1
                    let szBase := if fbo then 0 else buflen - markerlen
                    let sz := szBase + offset + 1
                    let (rctx', pieces) := csrfp_inject rctx buf sz false
                    -- goto restart on the bucket after the injected payload
                    scanLoop fuel rctx' false (⟨buf.data.drop sz⟩ :: rest)
                      ((pieces.take 2).reverse ++ acc)
                | none =>
                    -- case 2: defer the '>' search to the next bucket
                    scanLoop fuel rctx true rest (buf :: acc)
              else if rctx.state = .op_body_init then
                let (rctx', pieces) := bodyEndInject rctx buf (marker?.getD 0)
                -- loop resumes after the bucket returned by csrfp_inject
                scanLoop fuel rctx' false rest (pieces.reverse ++ acc)
              else
                scanLoop fuel rctx false rest (buf :: acc)
            else
              -- case 3/4: no match; save the overlap window for the next bucket
              scanLoop fuel { rctx with overlap_buf := saveOverlap buf } false
                rest (buf :: acc)

/-! ### Content type and Content-Length handling (source lines 488-499, 1154-1215) -/

def getOutputContentType (headers_out_ct err_headers_out_ct r_content_type : Option String) :
    Option String :=
  match headers_out_ct with
  | some t => some t
  | none =>
      match err_headers_out_ct with
      | some t => some t
      | none => r_content_type

/-- `strncasecmp(type, lit, n) == 0`: the first `n` characters agree up
to case (comparison of shorter strings stops at the NUL mismatch, which
the `take` rendering reproduces). -/
def strncasecmpEqZero (a b : String) (n : Nat) : Bool :=
  lowerEqCI (a.data.take n) (b.data.take n)

def isHtmlContentType (t : String) : Bool :=
  strncasecmpEqZero t "text/html" 9 || strncasecmpEqZero t "text/xhtml" 10

/-- Content-Length state of the response: the header value on the
normal table, on the error table, and the `r->chunked` flag. -/
structure CLResult where
  out_cl : Option String
  err_cl : Option String
  chunked : Bool
deriving Repr, DecidableEq

/-- The Content-Length adjustment of the html branch (source lines
1179-1213, with `CSRFP_CHUNKED_ONLY = 0`): look up `Content-Length` on
`headers_out`, falling back to `err_headers_out` (`errh = 1`); when
present and `apr_strtoff` succeeds, set the same table's header to the
parsed value plus `strlen(script) + strlen(noscript)`; when
`apr_strtoff` fails, set `r->chunked = 1` and unset the header on that
table; when absent, leave everything alone. -/
def contentLengthAdjust (cl_out cl_err : Option String) (slen nlen : Nat) : CLResult :=
  match cl_out with
  | some cl =>
      match apr_strtoff cl with
      | some s => ⟨some (toString (s + (slen : Int) + (nlen : Int))), cl_err, false⟩
      | none => ⟨none, cl_err, true⟩
  | none =>
      match cl_err with
      | some cl =>
          match apr_strtoff cl with
          | some s => ⟨none, some (toString (s + (slen : Int) + (nlen : Int))), false⟩
          | none => ⟨none, none, true⟩
      | none => ⟨cl_out, cl_err, false⟩

/-- Inputs of one `csrfp_out_filter` invocation that the model tracks:
the three places a content type can be declared, the two
Content-Length tables, and the data buckets of the brigade (metadata
buckets such as EOS carry no bytes and are skipped by the scan). -/
structure FilterInput where
  headers_out_ct : Option String
  err_headers_out_ct : Option String
  r_content_type : Option String
  cl_out : Option String
  cl_err : Option String
  chunks : List String
deriving Repr, DecidableEq

def scanFuel (chunks : List String) : Nat :=
  chunks.foldl (fun a c => a + c.length) 0 + chunks.length + 1

/-- One pass of `csrfp_out_filter` (source lines 1131-1337, the
validation-needed path): in state `op_init` decide from the content
type whether to parse at all (non-html: jump to `op_end`, drop the
search, leave the headers alone) and otherwise adjust Content-Length;
then, if a search string is live, run the scan loop over the brigade,
else pass every bucket through unchanged. -/
def csrfp_out_filter (rctx : OpfCtx) (inp : FilterInput) :
    OpfCtx × CLResult × List String :=
  let (rctx1, cl) :=
    if rctx.state = .op_init then
      match getOutputContentType inp.headers_out_ct inp.err_headers_out_ct
          inp.r_content_type with
      | none =>
          ({ rctx with state := .op_end, search := none },
           ⟨inp.cl_out, inp.cl_err, false⟩)
      | some t =>
          if isHtmlContentType t then
            (rctx, contentLengthAdjust inp.cl_out inp.cl_err
              rctx.script.length rctx.noscript.length)
          else
            ({ rctx with state := .op_end, search := none },
             ⟨inp.cl_out, inp.cl_err, false⟩)
    else (rctx, ⟨inp.cl_out, inp.cl_err, false⟩)
  match rctx1.search with
  | none => (rctx1, cl, inp.chunks)
  | some _ =>
      let (rctx2, out) := scanLoop (scanFuel inp.chunks) rctx1 false inp.chunks []
      (rctx2, cl, out)

/-! ### Cookie extraction: `getCookieToken` (source lines 415-433)

`ap_strstr_c(cookie, key)` is plain (case-sensitive) substring search;
we model the returned pointer as the index of the first occurrence.
`value += strlen(key) + 1` then skips the occurrence plus one character
(the assumed `'='`), and the copy is truncated at the first `';'`
(`strchr`).  When the occurrence ends at the very end of the header the
C pointer steps past the NUL terminator (undefined behaviour); the
model's `List.drop` yields the empty string there. -/

def ap_strstr (hay key : List Char) : Option Nat :=
  if key.isPrefixOf hay then some 0
  else
    match hay with
    | [] => none
    | _ :: t => (ap_strstr t key).map (· + 1)

def getCookieToken (cookie : Option String) (key : String) : Option String :=
  match cookie with
  | none => none
  | some ck =>
      match ap_strstr ck.data key.data with
      | none => none
      | some p =>
          let buffer := ck.data.drop (p + key.length + 1)
          some ⟨buffer.takeWhile (fun c => c != ';')⟩

/-! ### Counter and reseeding: `csrfp_sql_update_counter` (source lines
798-850) and the reseed step of `setTokenCookie` (source lines 377-402)

The single-row `CSRFP_COUNTER` table is modelled as `Option Nat` (`none`
before the first insert).  `csrfp_sql_update_counter` returns the
updated table together with the counter value it reports: on an
existing row with value `c` it runs `UPDATE ... counter = counter + 1`
and returns `c + 1`; on an empty table it inserts `1` and returns `1`.
`setTokenCookie` then reseeds the random generator from `/dev/urandom`
and runs `UPDATE CSRFP_COUNTER SET counter = 0` exactly when the
returned counter equals `RESEED_RAND_AT`. -/

def csrfp_sql_update_counter : Option Nat → Option Nat × Nat
  | some c => (some (c + 1), c + 1)
  | none => (some 1, 1)

/-- The counter/reseed portion of one token issuance
(`setTokenCookie`); the boolean records whether the reseed fired. -/
def tokenIssuanceStep (s : Option Nat) : Option Nat × Bool :=
  let r := csrfp_sql_update_counter s
  if r.2 = RESEED_RAND_AT then (some 0, true) else (r.1, false)

/-- Counter-table state after `n` token issuances starting from a fresh
(empty) counter table. -/
def issuanceState : Nat → Option Nat
  | 0 => none
  | n + 1 => (tokenIssuanceStep (issuanceState n)).1

/-- Counter value reported by `csrfp_sql_update_counter` during the
`n`-th issuance (`n ≥ 1`). -/
def nthCounterReturn (n : Nat) : Nat :=
  (csrfp_sql_update_counter (issuanceState (n - 1))).2

/-- Whether the `n`-th issuance triggers the reseed (`n ≥ 1`). -/
def nthReseed (n : Nat) : Bool :=
  (tokenIssuanceStep (issuanceState (n - 1))).2

/-- Number of reseeds triggered during the first `n` issuances. -/
def reseedCount : Nat → Nat
  | 0 => 0
  | n + 1 => reseedCount n + (if (tokenIssuanceStep (issuanceState n)).2 then 1 else 0)

/-! ## Helper lemmas -/

/-- `List.find?` returns the distinguished element when it satisfies the
predicate and is the only member doing so. -/
theorem find_of_unique {α : Type} {p : α → Bool} {l : List α} {a : α}
    (hmem : a ∈ l) (hp : p a = true)
    (huniq : ∀ b ∈ l, p b = true → b = a) :
    l.find? p = some a := by
  induction l with
  | nil => cases hmem
  | cons h t ih =>
      by_cases hph : p h = true
      · have : h = a := huniq h (List.mem_cons_self h t) hph
        subst this
        simp [List.find?, hph]
      · have hne : h ≠ a := fun he => hph (he ▸ hp)
        have hmem' : a ∈ t := by
          rcases List.mem_cons.mp hmem with h1 | h1
          · exact absurd h1.symm hne
          · exact h1
        have ih' := ih hmem' (fun b hb hpb => huniq b (List.mem_cons_of_mem _ hb) hpb)
        have hph' : p h = false := by simpa using hph
        simp [List.find?, hph', ih']

theorem find_none_of_all {α : Type} {p : α → Bool} {l : List α}
    (h : ∀ b ∈ l, p b = false) : l.find? p = none :=
  List.find?_eq_none.mpr (fun x hx => by simp [h x hx])

theorem isPrefixOf_ex {α : Type} [DecidableEq α] :
    ∀ (l₁ l₂ : List α), l₁.isPrefixOf l₂ = true ↔ ∃ t, l₂ = l₁ ++ t := by
  intro l₁
  induction l₁ with
  | nil =>
      intro l₂
      simp [List.isPrefixOf]
  | cons a t ih =>
      intro l₂
      cases l₂ with
      | nil => simp [List.isPrefixOf]
      | cons b t₂ =>
          simp only [List.isPrefixOf, Bool.and_eq_true, beq_iff_eq, ih]
          constructor
          · rintro ⟨rfl, u, rfl⟩
            exact ⟨u, rfl⟩
          · rintro ⟨u, hu⟩
            injection hu with h1 h2
            exact ⟨h1.symm, u, h2⟩

theorem ap_strstr_none {key : List Char} :
    ∀ {hay : List Char}, ap_strstr hay key = none →
      ∀ p, key.isPrefixOf (hay.drop p) = false := by
  intro hay
  induction hay with
  | nil =>
      intro h p
      rw [ap_strstr] at h
      by_cases hp : key.isPrefixOf ([] : List Char) = true
      · simp [hp] at h
      · have hp' : key.isPrefixOf ([] : List Char) = false := by
          rw [Bool.eq_false_iff]
          exact hp
        rw [List.drop_nil]
        exact hp'
  | cons a t ih =>
      intro h p
      rw [ap_strstr] at h
      by_cases hp : key.isPrefixOf (a :: t) = true
      · simp [hp] at h
      · have hp' : key.isPrefixOf (a :: t) = false := by
          rw [Bool.eq_false_iff]
          exact hp
        simp only [hp', if_false, Bool.false_eq_true] at h
        have ht : ap_strstr t key = none := by
          cases hr : ap_strstr t key with
          | none => rfl
          | some q => simp [hr] at h
        cases p with
        | zero => exact hp'
        | succ q => exact ih ht q

theorem ap_strstr_some {key : List Char} :
    ∀ {hay : List Char} {p : Nat}, ap_strstr hay key = some p →
      key.isPrefixOf (hay.drop p) = true
      ∧ ∀ q, q < p → key.isPrefixOf (hay.drop q) = false := by
  intro hay
  induction hay with
  | nil =>
      intro p h
      rw [ap_strstr] at h
      by_cases hp : key.isPrefixOf ([] : List Char) = true
      · simp only [hp, if_true] at h
        injection h with h
        subst h
        exact ⟨hp, fun q hq => absurd hq (Nat.not_lt_zero q)⟩
      · simp [hp] at h
  | cons a t ih =>
      intro p h
      rw [ap_strstr] at h
      by_cases hp : key.isPrefixOf (a :: t) = true
      · simp only [hp, if_true] at h
        injection h with h
        subst h
        exact ⟨hp, fun q hq => absurd hq (Nat.not_lt_zero q)⟩
      · have hp' : key.isPrefixOf (a :: t) = false := by
          rw [Bool.eq_false_iff]
          exact hp
        simp only [hp', if_false, Bool.false_eq_true] at h
        cases hr : ap_strstr t key with
        | none => simp [hr] at h
        | some q =>
            simp only [hr, Option.map_some] at h
            injection h with h
            subst h
            obtain ⟨h1, h2⟩ := ih hr
            refine ⟨h1, ?_⟩
            intro r hr2
            cases r with
            | zero => exact hp'
            | succ r' => exact h2 r' (Nat.lt_of_succ_lt_succ hr2)

theorem issuanceState_mod : ∀ n, 1 ≤ n →
    issuanceState n = some (n % RESEED_RAND_AT) := by
  intro n hn
  induction n with
  | zero => omega
  | succ m ih =>
      rcases Nat.eq_zero_or_pos m with h0 | hpos
      · subst h0
        decide
      · have ih' := ih hpos
        show (tokenIssuanceStep (issuanceState m)).1 = _
        rw [ih']
        unfold tokenIssuanceStep csrfp_sql_update_counter
        by_cases hc : m % RESEED_RAND_AT + 1 = RESEED_RAND_AT
        · simp only [hc, if_pos rfl]
          have : (m + 1) % RESEED_RAND_AT = 0 := by
            unfold RESEED_RAND_AT at *
            omega
          simp [this]
        · rw [if_neg hc]
          have : (m + 1) % RESEED_RAND_AT = m % RESEED_RAND_AT + 1 := by
            unfold RESEED_RAND_AT at *
            omega
          simp [this]

theorem getCookieToken_eq (ck key : String) :
    getCookieToken (some ck) key
      = match ap_strstr ck.data key.data with
        | none => none
        | some p =>
            some ⟨(ck.data.drop (p + key.length + 1)).takeWhile (fun c => c != ';')⟩ :=
  rfl

theorem reseedCount_div : ∀ n, reseedCount n = n / RESEED_RAND_AT := by
  intro n
  induction n with
  | zero => simp [reseedCount]
  | succ m ih =>
      rcases Nat.eq_zero_or_pos m with h0 | hpos
      · subst h0
        decide
      · show reseedCount m + _ = _
        rw [ih, issuanceState_mod m hpos]
        unfold tokenIssuanceStep csrfp_sql_update_counter
        by_cases hc : m % RESEED_RAND_AT + 1 = RESEED_RAND_AT
        · simp only [hc, if_pos rfl, if_true]
          unfold RESEED_RAND_AT at *
          omega
        · rw [if_neg hc]
          simp only [Bool.false_eq_true, if_false]
          unfold RESEED_RAND_AT at *
          omega

/-! ## Claim theorems -/

/-- C1, counterexample.  Store one session entry
`(sessid = "sid1", token = "tokA", issued_at = 0)` and match the
differing candidate `"tokB"` at `now = 2000`, i.e. well past the
1800-second expiry window.  The claim demands the `Expired` result
(`-1`) regardless of token equality; `csrfp_sql_match` instead reports
`1` (its no-row code), because its SQL query filters on the token as
well as the session id. -/
theorem C1_counterexample :
    csrfp_sql_match [⟨"sid1", "tokA", 0⟩] "sid1" "tokB" 2000 = 1
    ∧ 2000 - 0 > TOKEN_EXPIRY_MAXTIME
    ∧ ¬ ((1 : Int) = -1) := by
  refine ⟨by decide, by decide, by decide⟩

/-- C1, amended.  `csrfp_sql_match` looks the session up by session id
AND candidate token together, so: when no entry carries the session id
the result is `1`; when the (unique) entry for the session id holds a
different token the result is also `1` — regardless of expiry — and
only when the stored token equals the candidate does the timestamp
matter: `-1` (`Expired`) if `now > issued_at + TOKEN_EXPIRY_MAXTIME`,
else `0` (`Valid`).  `NoMatch` and `NotFound` share the return code `1`. -/
theorem C1_match_amended (tbl : List SessionRow) (s v : String) (now : Nat) :
    ((∀ r ∈ tbl, r.sessid ≠ s) → csrfp_sql_match tbl s v now = 1)
    ∧ (∀ row ∈ tbl, row.sessid = s → (∀ r ∈ tbl, r.sessid = s → r = row) →
        ((row.token ≠ v → csrfp_sql_match tbl s v now = 1)
         ∧ (row.token = v → now > row.timestamp + TOKEN_EXPIRY_MAXTIME →
             csrfp_sql_match tbl s v now = -1)
         ∧ (row.token = v → ¬ now > row.timestamp + TOKEN_EXPIRY_MAXTIME →
             csrfp_sql_match tbl s v now = 0))) := by
  constructor
  · intro hno
    have : sqlSelectByBoth tbl s v = none := by
      apply find_none_of_all
      intro b hb
      have := hno b hb
      simp [this]
    simp [csrfp_sql_match, this]
  · intro row hmem hsid huniq
    refine ⟨?_, ?_, ?_⟩
    · intro htok
      have : sqlSelectByBoth tbl s v = none := by
        apply find_none_of_all
        intro b hb
        by_cases hbs : b.sessid = s
        · have : b = row := huniq b hb hbs
          subst this
          simp [htok]
        · simp [hbs]
      simp [csrfp_sql_match, this]
    · intro htok hexp
      have hfind : sqlSelectByBoth tbl s v = some row := by
        apply find_of_unique hmem
        · simp [hsid, htok]
        · intro b hb hpb
          simp only [Bool.and_eq_true, beq_iff_eq] at hpb
          exact huniq b hb hpb.1
      simp [csrfp_sql_match, hfind, hexp]
    · intro htok hexp
      have hfind : sqlSelectByBoth tbl s v = some row := by
        apply find_of_unique hmem
        · simp [hsid, htok]
        · intro b hb hpb
          simp only [Bool.and_eq_true, beq_iff_eq] at hpb
          exact huniq b hb hpb.1
      simp [csrfp_sql_match, hfind, hexp]

/-- C1, witness: the amended theorem applied to a one-entry store in
each of its four situations. -/
theorem C1_match_amended_witness :
    csrfp_sql_match [⟨"sid", "tokA", 100⟩] "sid" "tokB" 200 = 1
    ∧ csrfp_sql_match [⟨"sid", "tokA", 100⟩] "sid" "tokA" 2000 = -1
    ∧ csrfp_sql_match [⟨"sid", "tokA", 100⟩] "sid" "tokA" 200 = 0
    ∧ csrfp_sql_match [⟨"sid2", "tokA", 100⟩] "sid" "tokA" 200 = 1 := by
  have huniq : ∀ r ∈ [(⟨"sid", "tokA", 100⟩ : SessionRow)], r.sessid = "sid" →
      r = (⟨"sid", "tokA", 100⟩ : SessionRow) := by
    intro r hr _
    simpa using hr
  have hmem : (⟨"sid", "tokA", 100⟩ : SessionRow) ∈
      [(⟨"sid", "tokA", 100⟩ : SessionRow)] := by simp
  refine ⟨?_, ?_, ?_, ?_⟩
  · exact (((C1_match_amended [⟨"sid", "tokA", 100⟩] "sid" "tokB" 200).2
      ⟨"sid", "tokA", 100⟩ hmem rfl huniq).1) (by decide)
  · exact (((C1_match_amended [⟨"sid", "tokA", 100⟩] "sid" "tokA" 2000).2
      ⟨"sid", "tokA", 100⟩ hmem rfl huniq).2.1) rfl (by decide)
  · exact (((C1_match_amended [⟨"sid", "tokA", 100⟩] "sid" "tokA" 200).2
      ⟨"sid", "tokA", 100⟩ hmem rfl huniq).2.2) rfl (by decide)
  · exact ((C1_match_amended [⟨"sid2", "tokA", 100⟩] "sid" "tokA" 200).1)
      (by intro r hr; simp at hr; simp [hr])

/-- C2, counterexample.  `generateToken` indexes the 62-symbol alphabet
with `buf[i] % (strlen(charset) - 1)`, i.e. modulo 61: no byte value
(0-255) can ever produce the final symbol `'0'`, although `'0'` is one
of the 62 alphabet symbols — refuting "every one of the 62 symbols can
occur at every position". -/
theorem C2_counterexample :
    ((List.range 256).all fun b => !(generateTokenChars [b] == ['0'])) = true
    ∧ '0' ∈ charset
    ∧ charset.length = 62 := by
  refine ⟨by decide, by decide, by decide⟩

/-- C2, amended.  The token has exactly one character per random byte,
each obtained by reducing the byte modulo 61 (the alphabet size minus
one): every one of the first 61 symbols (a-z, A-Z, 1-9) can occur at
every position, while the 62nd symbol `'0'` can never occur. -/
theorem C2_generateToken_amended :
    (∀ buf : List Nat, (generateTokenChars buf).length = buf.length)
    ∧ (∀ buf : List Nat, ∀ i : Nat,
        (generateTokenChars buf)[i]? = (buf[i]?).map (fun b => charset.getD (b % 61) 'a'))
    ∧ (∀ b : Nat, charset.getD (b % 61) 'a' ≠ '0')
    ∧ (∀ c ∈ charset.take 61, ∃ b : Nat, b < 256 ∧ charset.getD (b % 61) 'a' = c) := by
  have hlen : charset.length - 1 = 61 := by decide
  refine ⟨?_, ?_, ?_, ?_⟩
  · intro buf
    simp [generateTokenChars]
  · intro buf i
    simp [generateTokenChars, hlen]
  · intro b
    have hb : b % 61 < 61 := Nat.mod_lt _ (by norm_num)
    have hall : ∀ k < 61, charset.getD k 'a' ≠ '0' := by decide
    exact hall _ hb
  · decide

/-- C2, witness: the amended theorem applied at concrete inputs — the
one-byte token has length one, the symbol `'z'` is reachable, and byte
200 does not map to `'0'`. -/
theorem C2_generateToken_amended_witness :
    (generateTokenChars [61]).length = ([61] : List Nat).length
    ∧ (∃ b : Nat, b < 256 ∧ charset.getD (b % 61) 'a' = 'z')
    ∧ charset.getD (200 % 61) 'a' ≠ '0' :=
  ⟨(C2_generateToken_amended).1 [61],
   (C2_generateToken_amended).2.2.2 'z' (by decide),
   (C2_generateToken_amended).2.2.1 200⟩

/-- C7, counterexample.  With the failure action `message` and the
configured message `"Custom warning"`, the emitted body is
`"<h2>Custom warning</h2>"` (the source runs
`ap_rprintf(r, "<h2>%s</h2>", conf->errorCustomMessage)`), not the
configured message exactly as configured. -/
theorem C7_counterexample :
    (failedValidationAction .message "" "Custom warning" "POST" none).body
      = some "<h2>Custom warning</h2>"
    ∧ some "<h2>Custom warning</h2>" ≠ some ("Custom warning" : String) := by
  refine ⟨rfl, by decide⟩

/-- C7, amended.  When validation fails and the configured action is
`message`, the configured custom message wrapped in an `<h2>` element
(`"<h2>" ++ message ++ "</h2>"`) is emitted as the response body and the
handler returns `DONE` (normal termination of request handling). -/
theorem C7_message_action (uri msg method : String) (args : Option String) :
    (failedValidationAction .message uri msg method args).body
        = some ("<h2>" ++ msg ++ "</h2>")
    ∧ (failedValidationAction .message uri msg method args).status = AP_DONE :=
  ⟨rfl, rfl⟩

/-- C8, confirmed.  For a nonempty `tokenLength` directive argument: if
the parsed value is strictly below the floor of 12, the previously
effective token length is retained; a parsed value of 12 or more
replaces it. -/
theorem C8_tokenLength (arg : String) (current : Int) (h : arg.length > 0) :
    (atoiC arg < 12 → csrfp_tokenLength_cmd arg current = current)
    ∧ (12 ≤ atoiC arg → csrfp_tokenLength_cmd arg current = atoiC arg) := by
  unfold csrfp_tokenLength_cmd
  rw [if_pos h]
  constructor
  · intro hlt
    simp only [DEFAULT_TOKEN_MINIMUM_LENGTH]
    rw [if_pos (Or.inl hlt)]
  · intro hge
    simp only [DEFAULT_TOKEN_MINIMUM_LENGTH]
    rw [if_neg]
    push_neg
    constructor
    · omega
    · omega

/-- C8, witness: the scenario of the spec — configured value 8 (below
the floor) is rejected and the prior length 15 is kept; value 13 is
accepted. -/
theorem C8_tokenLength_witness :
    csrfp_tokenLength_cmd "8" 15 = 15 ∧ csrfp_tokenLength_cmd "13" 15 = 13 := by
  constructor
  · exact (C8_tokenLength "8" 15 (by decide)).1 (by decide)
  · exact (C8_tokenLength "13" 15 (by decide)).2 (by decide)

/-- C3, counterexample.  After the no-script injection the stored
search string is `apr_cpystrn(rctx->search, "</body>", strlen("</body>"))`
= the SIX-character `"</body"` (`apr_cpystrn` copies at most `n - 1`
characters), not the seven-character `"</body>"` the claim states. -/
theorem C3_counterexample :
    (csrfp_inject (csrfp_get_rctx "js" "tok" "msg" []) "<body>x" 6 false).1.search
      = some "</body"
    ∧ some ("</body" : String) ≠ some ("</body>" : String)
    ∧ ("</body" : String).length = 6 := by
  refine ⟨by decide, by decide, by decide⟩

/-- C3, amended.  The sought marker is the five-character `"<body"`
while un-opened; once the no-script injection switches the search, the
stored marker is the SIX-character `"</body"` (a casualty of
`apr_cpystrn`'s `n - 1` copy).  The split offset on a `"</body"` find
still uses `sizeof("</body>") - 1 = 7`: a marker found at offset `i`
inside the chunk proper splits the chunk at `i + 7` — immediately after
the full seven characters `"</body>"` whenever the found occurrence is
indeed followed by `'>'` — and the script payload is inserted there,
with the state advanced to `op_body_end` and the search dropped. -/
theorem C3_marker_amended :
    (∀ js tn msg : String, ∀ pats : List String,
        (csrfp_get_rctx js tn msg pats).search = some "<body"
        ∧ ("<body" : String).length = 5)
    ∧ (∀ rctx : OpfCtx, ∀ chunk : String, ∀ sz : Nat,
        (csrfp_inject rctx chunk sz false).1.search = some "</body"
        ∧ (csrfp_inject rctx chunk sz false).1.state = .op_body_init
        ∧ ("</body" : String).length = 6 ∧ ("</body>" : String).length = 7)
    ∧ (∀ rctx : OpfCtx, ∀ buf : String, ∀ i : Nat, i ≤ buf.length →
        bodyEndInject rctx buf (rctx.overlap_buf.length + i)
          = ({ rctx with state := .op_body_end, search := none },
             [⟨buf.data.take (i + 7)⟩, rctx.script, ⟨buf.data.drop (i + 7)⟩])) := by
  refine ⟨?_, ?_, ?_⟩
  · intro js tn msg pats
    exact ⟨rfl, by decide⟩
  · intro rctx chunk sz
    refine ⟨rfl, rfl, by decide, by decide⟩
  · intro rctx buf i h
    have hsz : buf.length
        - (rctx.overlap_buf.length + buf.length - (rctx.overlap_buf.length + i))
        + ("</body>" : String).length = i + 7 := by
      have h7 : ("</body>" : String).length = 7 := by decide
      rw [h7]
      omega
    unfold bodyEndInject csrfp_inject
    simp [hsz]

/-- C3, witness: with the marker `"</body"` found 2 characters into the
chunk `"xx</body>end"`, the chunk is split at offset 9 — right after
the full `"</body>"` — and the script payload is inserted there. -/
theorem C3_marker_amended_witness :
    (bodyEndInject ((csrfp_inject (csrfp_get_rctx "js" "tok" "msg" []) "<body>x" 6 false).1)
        "xx</body>end"
        (((csrfp_inject (csrfp_get_rctx "js" "tok" "msg" []) "<body>x" 6 false).1).overlap_buf.length + 2)).2
      = ["xx</body>",
         ((csrfp_inject (csrfp_get_rctx "js" "tok" "msg" []) "<body>x" 6 false).1).script,
         "end"] := by
  have h := (C3_marker_amended).2.2
    ((csrfp_inject (csrfp_get_rctx "js" "tok" "msg" []) "<body>x" 6 false).1)
    "xx</body>end" 2 (by decide)
  rw [h]
  decide

/-- C4, counterexample.  Scanning the no-match chunk `"abcdefghij"`
stores `"abcdefg"` — the chunk's FIRST seven bytes — in the carry
buffer (`cptr = buf + (sizeof buf) - 8` computes `buf + 0` because
`buf` is a pointer of size 8, and `apr_cpystrn(.., 8)` copies 7
characters), not the trailing `min(length, 8)` window `"cdefghij"` the
claim states. -/
theorem C4_counterexample :
    (scanLoop 2 (csrfp_get_rctx "js" "tok" "msg" []) false ["abcdefghij"] []).1.overlap_buf
      = "abcdefg"
    ∧ ("abcdefg" : String) ≠ "cdefghij"
    ∧ ("cdefghij" : String).data
        = ("abcdefghij" : String).data.drop
            (("abcdefghij" : String).length - CSRFP_OVERLAP_BUCKET_SIZE) := by
  refine ⟨by decide, by decide, by decide⟩

/-- C4, amended.  On a 64-bit platform (`sizeof(const char *) = 8 =
CSRFP_OVERLAP_BUCKET_SIZE`), after a non-empty chunk in which the sought
marker is not found the scanner stores the chunk's LEADING window — its
first `min(length, 7)` bytes — into the carry buffer, and that buffer is
prepended to the next chunk before the next search (so a marker split
across two chunks is generally NOT recovered: the trailing bytes of the
failed chunk are never retained). -/
theorem C4_overlap_amended :
    (∀ buf : String,
        saveOverlap buf = ⟨buf.data.take (CSRFP_OVERLAP_BUCKET_SIZE - 1)⟩)
    ∧ (∀ fuel : Nat, ∀ rctx : OpfCtx, ∀ buf : String, ∀ rest acc : List String,
        ∀ s : String, rctx.search = some s → buf.length ≠ 0 →
        csrfp_strncasestr (rctx.overlap_buf.data ++ buf.data) s.data buf.length = none →
        scanLoop (fuel + 1) rctx false (buf :: rest) acc
          = scanLoop fuel { rctx with overlap_buf := saveOverlap buf } false rest
              (buf :: acc)) := by
  constructor
  · intro buf
    rfl
  · intro fuel rctx buf rest acc s hs hlen hnone
    rw [scanLoop]
    rw [if_neg hlen, hs]
    simp [hnone]

/-- C4, witness: the no-match step applied to the initial context and a
12-byte chunk; the new carry buffer is the chunk's first 7 bytes. -/
theorem C4_overlap_amended_witness :
    scanLoop 2 (csrfp_get_rctx "js" "tok" "msg" []) false ["0123456789AB"] []
      = scanLoop 1
          { (csrfp_get_rctx "js" "tok" "msg" []) with
              overlap_buf := saveOverlap "0123456789AB" }
          false [] ["0123456789AB"]
    ∧ saveOverlap "0123456789AB" = "0123456" := by
  constructor
  · exact (C4_overlap_amended).2 1 (csrfp_get_rctx "js" "tok" "msg" [])
      "0123456789AB" [] [] "<body" rfl (by decide) (by decide)
  · decide

/-- C5, confirmed.  In the html branch of `csrfp_out_filter`, a
`Content-Length` found on the normal header table (else on the
error-path table) and parsed successfully by `apr_strtoff` is replaced,
on the same table, by the parsed value plus the combined byte length of
the script and no-script payloads; when `apr_strtoff` fails (the value
falls outside the int64 range) the response falls back to chunked
transfer encoding (`r->chunked = 1`) and the header is removed from
that table; when no header is present nothing changes. -/
theorem C5_contentLength (cl_out cl_err : Option String) (slen nlen : Nat) :
    (∀ s v, cl_out = some s → apr_strtoff s = some v →
        contentLengthAdjust cl_out cl_err slen nlen
          = ⟨some (toString (v + (slen : Int) + (nlen : Int))), cl_err, false⟩)
    ∧ (∀ s, cl_out = some s → apr_strtoff s = none →
        contentLengthAdjust cl_out cl_err slen nlen = ⟨none, cl_err, true⟩)
    ∧ (∀ s v, cl_out = none → cl_err = some s → apr_strtoff s = some v →
        contentLengthAdjust cl_out cl_err slen nlen
          = ⟨none, some (toString (v + (slen : Int) + (nlen : Int))), false⟩)
    ∧ (∀ s, cl_out = none → cl_err = some s → apr_strtoff s = none →
        contentLengthAdjust cl_out cl_err slen nlen = ⟨none, none, true⟩)
    ∧ (cl_out = none → cl_err = none →
        contentLengthAdjust cl_out cl_err slen nlen = ⟨none, none, false⟩) := by
  refine ⟨?_, ?_, ?_, ?_, ?_⟩
  · intro s v h1 h2
    subst h1
    simp [contentLengthAdjust, h2]
  · intro s h1 h2
    subst h1
    simp [contentLengthAdjust, h2]
  · intro s v h1 h2 h3
    subst h1
    subst h2
    simp [contentLengthAdjust, h3]
  · intro s h1 h2 h3
    subst h1
    subst h2
    simp [contentLengthAdjust, h3]
  · intro h1 h2
    subst h1
    subst h2
    simp [contentLengthAdjust]

/-- C5, witness: `Content-Length: 1000` on the normal table with
payload lengths 40 + 26 becomes `1066`; a value outside the int64 range
falls back to chunked with the header removed; `500` on the error-path
table becomes `566` there. -/
theorem C5_contentLength_witness :
    contentLengthAdjust (some "1000") none 40 26 = ⟨some "1066", none, false⟩
    ∧ contentLengthAdjust (some "99999999999999999999") none 40 26
        = ⟨none, none, true⟩
    ∧ contentLengthAdjust none (some "500") 40 26 = ⟨none, some "566", false⟩ := by
  refine ⟨?_, ?_, ?_⟩
  · exact ((C5_contentLength (some "1000") none 40 26).1 "1000" 1000 rfl
      (by decide)).trans (by decide)
  · exact (C5_contentLength (some "99999999999999999999") none 40 26).2.1
      "99999999999999999999" rfl (by decide)
  · exact ((C5_contentLength none (some "500") 40 26).2.2.1 "500" 500 rfl rfl
      (by decide)).trans (by decide)

/-- C6, confirmed.  When the declared content type (normal header
table, else error-path table, else the request's default type) is
absent or fails the `text/html` / `text/xhtml` prefix test, the filter
jumps from `op_init` straight to the terminal state `op_end`, drops the
search string, leaves both Content-Length tables untouched, and every
body chunk passes through with zero modification. -/
theorem C6_nonHtml (rctx : OpfCtx) (inp : FilterInput)
    (hstate : rctx.state = .op_init)
    (h : ∀ t, getOutputContentType inp.headers_out_ct inp.err_headers_out_ct
        inp.r_content_type = some t → isHtmlContentType t = false) :
    (csrfp_out_filter rctx inp).1.state = .op_end
    ∧ (csrfp_out_filter rctx inp).1.search = none
    ∧ (csrfp_out_filter rctx inp).2.2 = inp.chunks
    ∧ (csrfp_out_filter rctx inp).2.1 = ⟨inp.cl_out, inp.cl_err, false⟩ := by
  unfold csrfp_out_filter
  cases hct : getOutputContentType inp.headers_out_ct inp.err_headers_out_ct
      inp.r_content_type with
  | none =>
      simp [hstate, hct]
  | some t =>
      have ht := h t hct
      simp [hstate, hct, ht]

/-- C6, witness: a `application/json` response with two body chunks
passes through unchanged and the filter lands in `op_end`. -/
theorem C6_nonHtml_witness :
    (csrfp_out_filter (csrfp_get_rctx "js" "tok" "msg" [])
        ⟨some "application/json", none, none, some "14", none,
         ["<body>x", "</body>"]⟩).2.2
      = ["<body>x", "</body>"]
    ∧ (csrfp_out_filter (csrfp_get_rctx "js" "tok" "msg" [])
        ⟨some "application/json", none, none, some "14", none,
         ["<body>x", "</body>"]⟩).1.state = .op_end := by
  have h := C6_nonHtml (csrfp_get_rctx "js" "tok" "msg" [])
    ⟨some "application/json", none, none, some "14", none, ["<body>x", "</body>"]⟩
    rfl
    (by
      intro t ht
      simp only [getOutputContentType] at ht
      injection ht with ht
      subst ht
      decide)
  exact ⟨h.2.2.1, h.1⟩

/-- C9, confirmed.  Starting from a fresh counter table, the `N`-th
token issuance's `csrfp_sql_update_counter` call returns `N` (for `N`
up to the threshold; in general `(N-1) % RESEED_RAND_AT + 1`), the
reseed fires on the `N`-th issuance exactly when `N` is a multiple of
the threshold 10000 (at which point the stored counter is reset to 0),
and the number of reseeds over the first `N` issuances is exactly
`N / RESEED_RAND_AT` — once per threshold crossing. -/
theorem C9_counter (N : Nat) (h : 1 ≤ N) :
    (N ≤ RESEED_RAND_AT → nthCounterReturn N = N)
    ∧ nthCounterReturn N = (N - 1) % RESEED_RAND_AT + 1
    ∧ (nthReseed N = true ↔ N % RESEED_RAND_AT = 0)
    ∧ (N % RESEED_RAND_AT = 0 → issuanceState N = some 0)
    ∧ reseedCount N = N / RESEED_RAND_AT := by
  have hret : nthCounterReturn N = (N - 1) % RESEED_RAND_AT + 1 := by
    unfold nthCounterReturn
    rcases Nat.lt_or_ge (N - 1) 1 with h1 | h1
    · have : N - 1 = 0 := by omega
      rw [this]
      decide
    · rw [issuanceState_mod (N - 1) h1]
      rfl
  refine ⟨?_, hret, ?_, ?_, reseedCount_div N⟩
  · intro hle
    rw [hret]
    unfold RESEED_RAND_AT at *
    omega
  · have hsnd : ∀ s : Option Nat, (tokenIssuanceStep s).2
        = decide ((csrfp_sql_update_counter s).2 = RESEED_RAND_AT) := by
      intro s
      unfold tokenIssuanceStep
      by_cases hc : (csrfp_sql_update_counter s).2 = RESEED_RAND_AT
      · simp [hc]
      · simp [hc]
    show (tokenIssuanceStep (issuanceState (N - 1))).2 = true ↔ _
    rw [hsnd]
    have hr2 : (csrfp_sql_update_counter (issuanceState (N - 1))).2
        = (N - 1) % RESEED_RAND_AT + 1 := hret
    rw [hr2]
    constructor
    · intro hb
      have hmod := of_decide_eq_true hb
      unfold RESEED_RAND_AT at *
      omega
    · intro hmod
      apply decide_eq_true
      unfold RESEED_RAND_AT at *
      omega
  · intro hmod
    have h1 : 1 ≤ N := h
    rw [issuanceState_mod N h1, hmod]

/-- C9, witness: on a fresh counter the third issuance returns 3 with
no reseed yet, and the 10000-th issuance triggers the reseed. -/
theorem C9_counter_witness :
    nthCounterReturn 3 = 3
    ∧ nthReseed 10000 = true
    ∧ reseedCount 3 = 0 := by
  refine ⟨?_, ?_, ?_⟩
  · exact (C9_counter 3 (by decide)).1 (by decide)
  · exact (C9_counter 10000 (by decide)).2.2.1.mpr (by decide)
  · exact ((C9_counter 3 (by decide)).2.2.2.2).trans (by decide)

/-- C10, confirmed.  `getCookieToken` finds its key in the Cookie
header by plain substring search (`ap_strstr`): it returns `none`
exactly when the key does not occur as a substring, and whenever the
header decomposes as `pre ++ key ++ post` around the FIRST occurrence
(no decomposition has a shorter `pre`), it returns the characters one
position past the end of that occurrence up to the next `';'` or the
end of the header — with no requirement that the occurrence be a whole
cookie name or that an `'='` follow it. -/
theorem C10_getCookieToken (ck key : String) (hk : key ≠ "") :
    (getCookieToken (some ck) key = none
      ↔ ¬ ∃ pre post : List Char, ck.data = pre ++ key.data ++ post)
    ∧ (∀ pre post : List Char, ck.data = pre ++ key.data ++ post →
        (∀ pre2 post2 : List Char, ck.data = pre2 ++ key.data ++ post2 →
          pre.length ≤ pre2.length) →
        getCookieToken (some ck) key
          = some ⟨(post.drop 1).takeWhile (fun c => c != ';')⟩)
    ∧ getCookieToken none key = none := by
  have hkd : key.data ≠ [] := by
    intro hd
    apply hk
    cases key with
    | mk l => cases hd; rfl
  refine ⟨?_, ?_, rfl⟩
  · cases hstr : ap_strstr ck.data key.data with
    | none =>
        have hres : getCookieToken (some ck) key = none := by
          rw [getCookieToken_eq, hstr]
        refine iff_of_true hres ?_
        rintro ⟨pre, post, hd⟩
        have hnone := ap_strstr_none hstr pre.length
        rw [hd] at hnone
        have hpref : key.data.isPrefixOf ((pre ++ (key.data ++ post)).drop pre.length)
            = true := by
          rw [List.drop_left]
          exact (isPrefixOf_ex key.data (key.data ++ post)).mpr ⟨post, rfl⟩
        rw [List.append_assoc] at hnone
        rw [hpref] at hnone
        cases hnone
    | some p =>
        obtain ⟨h1, _⟩ := ap_strstr_some hstr
        obtain ⟨t, ht⟩ := (isPrefixOf_ex _ _).mp h1
        have hres : getCookieToken (some ck) key ≠ none := by
          rw [getCookieToken_eq, hstr]
          simp
        refine iff_of_false hres (not_not_intro ⟨ck.data.take p, t, ?_⟩)
        rw [List.append_assoc, ← ht, List.take_append_drop]
  · intro pre post hd hmin
    -- the first occurrence is at index pre.length
    have hpre : key.data.isPrefixOf (ck.data.drop pre.length) = true := by
      rw [hd, List.append_assoc, List.drop_left]
      exact (isPrefixOf_ex key.data (key.data ++ post)).mpr ⟨post, rfl⟩
    cases hstr : ap_strstr ck.data key.data with
    | none =>
        have := ap_strstr_none hstr pre.length
        rw [hpre] at this
        cases this
    | some p =>
        obtain ⟨h1, h2⟩ := ap_strstr_some hstr
        -- p ≤ pre.length by minimality of the search result
        have hple : p ≤ pre.length := by
          by_contra hgt
          have := h2 pre.length (by omega)
          rw [hpre] at this
          cases this
        -- pre.length ≤ p via the decomposition of the found occurrence
        obtain ⟨t, ht⟩ := (isPrefixOf_ex _ _).mp h1
        have hplen : p ≤ ck.data.length := by
          by_contra hgt
          have hnil : ck.data.drop p = [] := List.drop_eq_nil_of_le (by omega)
          rw [hnil] at ht
          exact hkd (List.append_eq_nil.mp ht.symm).1
        have hdecomp : ck.data = ck.data.take p ++ key.data ++ t := by
          rw [List.append_assoc, ← ht, List.take_append_drop]
        have hlep : pre.length ≤ (ck.data.take p).length := hmin _ _ hdecomp
        have htake : (ck.data.take p).length = p := by
          rw [List.length_take]
          omega
        have hpeq : p = pre.length := by omega
        subst hpeq
        have hpost : ck.data.drop (pre.length + key.length + 1) = post.drop 1 := by
          have hkey : key.length = key.data.length := rfl
          have hdl : ck.data.drop (pre.length + key.data.length) = post := by
            rw [hd, ← List.length_append, List.drop_left]
          have hdd := List.drop_drop 1 (pre.length + key.data.length) ck.data
          rw [hdl] at hdd
          rw [hkey]
          exact hdd.symm
        rw [getCookieToken_eq, hstr]
        simp [hpost]

/-- C10, witness: the key occurring at the start of the header (so the
first-occurrence side conditions are trivial); the returned value is
the text one past the occurrence up to the `';'`. -/
theorem C10_getCookieToken_witness :
    getCookieToken (some "CSRFPSESSID=xyz; b=2") "CSRFPSESSID" = some "xyz" := by
  have h := ((C10_getCookieToken "CSRFPSESSID=xyz; b=2" "CSRFPSESSID"
      (by decide)).2.1) [] ("=xyz; b=2".data) (by decide)
      (fun pre2 post2 _ => Nat.zero_le _)
  exact h.trans (by decide)

end Csrfp
